import Mathlib

/-!
A shallow embedding of the `gl` module of servo/sparkle (src/lib.rs): a
unified dispatcher over a desktop (`Gl`) and an embedded (`Gles`) native
function table.  Driver tables are modelled as response functions, each
dispatcher call returns the list of native entry points it invoked (its
trace) together with its result, and a Rust panic (assertion failure,
`unwrap`, `unreachable`) is modelled as `Option.none`.
-/

namespace gl

/-! ## Constants

Numeric enumeration constants from the generated bindings
(`gl_and_gles_bindings.rs`, produced by `build.rs` via gl_generator from the
Khronos GL registry; the values below are the registry values). -/

namespace ffi

def RED : Nat := 0x1903

def RGB : Nat := 0x1907

def BGR : Nat := 0x80E0

def RGBA : Nat := 0x1908

def BGRA : Nat := 0x80E1

def ALPHA : Nat := 0x1906

def R16 : Nat := 0x822A

def LUMINANCE : Nat := 0x1909

def DEPTH_COMPONENT : Nat := 0x1902

def UNSIGNED_BYTE : Nat := 0x1401

def UNSIGNED_SHORT : Nat := 0x1403

def SHORT : Nat := 0x1402

def FLOAT : Nat := 0x1406

def LOW_FLOAT : Nat := 0x8DF0

def MEDIUM_FLOAT : Nat := 0x8DF1

def HIGH_FLOAT : Nat := 0x8DF2

def LOW_INT : Nat := 0x8DF3

def MEDIUM_INT : Nat := 0x8DF4

def HIGH_INT : Nat := 0x8DF5

def PIXEL_UNPACK_BUFFER_BINDING : Nat := 0x88EF

def PACK_ALIGNMENT : Nat := 0x0D05

def INFO_LOG_LENGTH : Nat := 0x8B84

def ACTIVE_UNIFORM_MAX_LENGTH : Nat := 0x8B87

def TRUE : Nat := 1

def FALSE : Nat := 0

end ffi

/-! ## Machine-integer helpers -/

/-- Two's-complement wrap of a mathematical integer into `i32`
(release-mode Rust overflow semantics; all theorems below only use it on
in-range values, where both Rust profiles agree). -/
def wrapI32 (x : Int) : Int := (x + 2 ^ 31) % 2 ^ 32 - 2 ^ 31

/-- Rust `as usize` applied to an `i32` value (sign extension to 64 bits). -/
def usizeOfI32 (x : Int) : Nat := (x % 2 ^ 64).toNat

/-- Writing the byte sequence `w` into a fixed-size out-buffer `b` starting
at its first element: the buffer keeps its length. -/
def overwrite {α : Type} (b w : List α) : List α :=
  w.take b.length ++ b.drop w.length

/-! ## UTF-8 validity (Rust `String::from_utf8`)

A Rust `String` is a byte vector that satisfies the UTF-8 well-formedness
predicate; `String::from_utf8` returns the very same bytes when they are
well-formed and fails otherwise (the dispatcher `unwrap`s that failure into
a panic). -/

def isUtf8Cont (b : Nat) : Bool := 0x80 ≤ b && b ≤ 0xBF

def validUtf8 : List Nat → Bool
  | [] => true
  | b :: rest =>
    if b ≤ 0x7F then validUtf8 rest
    else if 0xC2 ≤ b && b ≤ 0xDF then
      match rest with
      | c1 :: rest1 => isUtf8Cont c1 && validUtf8 rest1
      | [] => false
    else if b = 0xE0 then
      match rest with
      | c1 :: c2 :: rest2 =>
        (0xA0 ≤ c1 && c1 ≤ 0xBF) && isUtf8Cont c2 && validUtf8 rest2
      | _ => false
    else if (0xE1 ≤ b && b ≤ 0xEC) || b = 0xEE || b = 0xEF then
      match rest with
      | c1 :: c2 :: rest2 => isUtf8Cont c1 && isUtf8Cont c2 && validUtf8 rest2
      | _ => false
    else if b = 0xED then
      match rest with
      | c1 :: c2 :: rest2 =>
        (0x80 ≤ c1 && c1 ≤ 0x9F) && isUtf8Cont c2 && validUtf8 rest2
      | _ => false
    else if b = 0xF0 then
      match rest with
      | c1 :: c2 :: c3 :: rest3 =>
        (0x90 ≤ c1 && c1 ≤ 0xBF) && isUtf8Cont c2 && isUtf8Cont c3 &&
          validUtf8 rest3
      | _ => false
    else if 0xF1 ≤ b && b ≤ 0xF3 then
      match rest with
      | c1 :: c2 :: c3 :: rest3 =>
        isUtf8Cont c1 && isUtf8Cont c2 && isUtf8Cont c3 && validUtf8 rest3
      | _ => false
    else if b = 0xF4 then
      match rest with
      | c1 :: c2 :: c3 :: rest3 =>
        (0x80 ≤ c1 && c1 ≤ 0x8F) && isUtf8Cont c2 && isUtf8Cont c3 &&
          validUtf8 rest3
      | _ => false
    else false

/-- `String::from_utf8(bytes)` followed by `.unwrap()`: the same bytes when
well-formed, a panic (`none`) otherwise. -/
def rustStringFromUtf8 (bs : List Nat) : Option (List Nat) :=
  if validUtf8 bs then some bs else none

/-! ## Pixel-Transfer Size Calculator (`calculate_length`) -/

/-- The `colors` match of `calculate_length`: components per pixel for each
supported format, a panic (`none`) outside the closed set. -/
def formatColors (format : Nat) : Option Int :=
  if format = ffi.RED then some 1
  else if format = ffi.RGB then some 3
  else if format = ffi.BGR then some 3
  else if format = ffi.RGBA then some 4
  else if format = ffi.BGRA then some 4
  else if format = ffi.ALPHA then some 1
  else if format = ffi.R16 then some 1
  else if format = ffi.LUMINANCE then some 1
  else if format = ffi.DEPTH_COMPONENT then some 1
  else none

/-- The `depth` match of `calculate_length`: bytes per component for each
supported component type, a panic (`none`) outside the closed set. -/
def pixelTypeDepth (pixel_type : Nat) : Option Int :=
  if pixel_type = ffi.UNSIGNED_BYTE then some 1
  else if pixel_type = ffi.UNSIGNED_SHORT then some 2
  else if pixel_type = ffi.SHORT then some 2
  else if pixel_type = ffi.FLOAT then some 4
  else none

/-- `calculate_length(width, height, format, pixel_type)`: the i32 product
`width * height * colors * depth` cast to `usize`; panics (`none`) on an
unsupported format or pixel type. -/
def calculate_length (width height : Int) (format pixel_type : Nat) :
    Option Nat :=
  match formatColors format, pixelTypeDepth pixel_type with
  | some colors, some depth =>
    some (usizeOfI32 (wrapI32 (wrapI32 (wrapI32 (width * height) * colors) * depth)))
  | _, _ => none

/-! ## Spec-side definitions for the size-calculator claim

These two tables follow the words of the specification ("componentsPerPixel"
and "bytesPerComponent" over the supported closed set) and are compared with
the tables extracted from the source. -/

/-- Modelled from the spec: components per pixel of each supported
pixel-layout selector. -/
def spec_componentsPerPixel (format : Nat) : Option Int :=
  if format = ffi.RED then some 1
  else if format = ffi.RGB then some 3
  else if format = ffi.BGR then some 3
  else if format = ffi.RGBA then some 4
  else if format = ffi.BGRA then some 4
  else if format = ffi.ALPHA then some 1
  else if format = ffi.R16 then some 1
  else if format = ffi.LUMINANCE then some 1
  else if format = ffi.DEPTH_COMPONENT then some 1
  else none

/-- Modelled from the spec: bytes per component of each supported component
numeric type. -/
def spec_bytesPerComponent (pixel_type : Nat) : Option Int :=
  if pixel_type = ffi.UNSIGNED_BYTE then some 1
  else if pixel_type = ffi.UNSIGNED_SHORT then some 2
  else if pixel_type = ffi.SHORT then some 2
  else if pixel_type = ffi.FLOAT then some 4
  else none

/-! ## Data model: pixel sources, native calls, driver function tables -/

/-- The data pointer handed to a native pixel call: null, a host byte span,
or a numeric offset into a bound transfer buffer. -/
inductive DataPtr where
  | null : DataPtr
  | host (bytes : List Nat) : DataPtr
  | offset (o : Int) : DataPtr
deriving DecidableEq

/-- `TexImageSource`: either an optional in-memory byte span or an offset
into a currently bound transfer buffer. -/
inductive TexImageSource where
  | Pixels (pixels : Option (List Nat)) : TexImageSource
  | BufferOffset (offset : Int) : TexImageSource

/-- One native entry point invocation, with the arguments the dispatcher
passed to it.  Extension entry points of the embedded table are distinct
constructors (their native names differ). -/
inductive Call where
  | getIntegerv (pname : Nat) : Call
  | texImage2D (target : Nat) (level internal_format width height border : Int)
      (format ty : Nat) (data : DataPtr) : Call
  | pixelStorei (pname : Nat) (param : Int) : Call
  | readPixels (x y width height : Int) (format pixel_type : Nat)
      (data : DataPtr) : Call
  | getShaderPrecisionFormat (shader_type precision_type : Nat)
      (rangeSeed : Int × Int) (precisionSeed : Int) : Call
  | getError : Call
  | getProgramiv (program pname : Nat) : Call
  | getShaderiv (shader pname : Nat) : Call
  | getProgramInfoLog (program : Nat) (max_len : Int) : Call
  | getShaderInfoLog (shader : Nat) (max_len : Int) : Call
  | getActiveUniform (program index : Nat) (buf_size : Int) : Call
  | getUniformiv (program : Nat) (location : Int) : Call
  | bindBufferRange (program index buffer : Nat) (offset size : Int) : Call
  | uniform2fv (location : Int) (count : Int) : Call
  | genQueries (n : Int) : Call
  | genQueriesEXT (n : Int) : Call
  | beginQuery (target id : Nat) : Call
  | beginQueryEXT (target id : Nat) : Call
  | endQuery (target : Nat) : Call
  | endQueryEXT (target : Nat) : Call
  | deleteQueries (ids : List Nat) : Call
  | deleteQueriesEXT (ids : List Nat) : Call
  | isQuery (id : Nat) : Call
  | isQueryEXT (id : Nat) : Call
  | getQueryiv (target pname : Nat) : Call
  | getQueryivEXT (target pname : Nat) : Call
  | getQueryObjectiv (id pname : Nat) : Call
  | getQueryObjectivEXT (id pname : Nat) : Call
  | getQueryObjectuiv (id pname : Nat) : Call
  | getQueryObjectuivEXT (id pname : Nat) : Call
  | getQueryObjecti64v (id pname : Nat) : Call
  | getQueryObjecti64vEXT (id pname : Nat) : Call
  | getQueryObjectui64v (id pname : Nat) : Call
  | getQueryObjectui64vEXT (id pname : Nat) : Call
  | getTransformFeedbackVarying (program index : Nat) (buf_size : Int) : Call
  | transformFeedbackVaryings (program : Nat) (count : Int)
      (names : List (List Nat)) (buffer_mode : Nat) : Call
deriving DecidableEq

/-- The desktop function table (`ffi_gl::Gl`): a response function per entry
point the embedded operations need.  Out-parameter writes are modelled as
the values the driver writes. -/
structure GlTable where
  GetIntegerv : Nat → Int
  GetUniformiv : Nat → Int → List Int
  ReadPixels : Int → Int → Int → Int → Nat → Nat → List Nat
  GetProgramiv : Nat → Nat → Int
  GetShaderiv : Nat → Nat → Int
  GetProgramInfoLog : Nat → Int → Int × List Nat
  GetShaderInfoLog : Nat → Int → Int × List Nat
  GetActiveUniform : Nat → Nat → Int → Int × Int × Nat × List Nat
  GetTransformFeedbackVarying : Nat → Nat → Int → Int × Int × Nat × List Nat
  GenQueries : Int → List Nat
  IsQuery : Nat → Nat
  GetQueryiv : Nat → Nat → Int
  GetQueryObjectiv : Nat → Nat → Int
  GetQueryObjectuiv : Nat → Nat → Nat
  GetQueryObjecti64v : Nat → Nat → Int
  GetQueryObjectui64v : Nat → Nat → Nat

/-- The embedded function table (`ffi_gles::Gles2`).  Optional extension
entry points are `Option`-typed: `none` models a function pointer that is
not loaded (`is_loaded()` returning false). -/
structure GlesTable where
  GetIntegerv : Nat → Int
  GetUniformiv : Nat → Int → List Int
  ReadPixels : Int → Int → Int → Int → Nat → Nat → List Nat
  GetProgramiv : Nat → Nat → Int
  GetShaderiv : Nat → Nat → Int
  GetProgramInfoLog : Nat → Int → Int × List Nat
  GetShaderInfoLog : Nat → Int → Int × List Nat
  GetActiveUniform : Nat → Nat → Int → Int × Int × Nat × List Nat
  GetTransformFeedbackVarying : Nat → Nat → Int → Int × Int × Nat × List Nat
  GetShaderPrecisionFormat : Nat → Nat → Int × Int → Int → (Int × Int) × Int
  GetError : Nat
  GenQueriesEXT : Option (Int → List Nat)
  BeginQueryEXT : Option Unit
  EndQueryEXT : Option Unit
  DeleteQueriesEXT : Option Unit
  IsQueryEXT : Option (Nat → Nat)
  GetQueryivEXT : Option (Nat → Nat → Int)
  GetQueryObjectivEXT : Option (Nat → Nat → Int)
  GetQueryObjectuivEXT : Option (Nat → Nat → Nat)
  GetQueryObjecti64vEXT : Option (Nat → Nat → Int)
  GetQueryObjectui64vEXT : Option (Nat → Nat → Nat)

/-- The unified dispatcher: a tagged union of exactly one of the two driver
function tables. -/
inductive Gl where
  | gl (t : GlTable) : Gl
  | gles (t : GlesTable) : Gl

/-! Response accessors: the entry points both tables provide, selected by
the active variant (used to state theorems about either backend). -/

def Gl.getIntegervResp : Gl → Nat → Int
  | .gl t => t.GetIntegerv
  | .gles t => t.GetIntegerv

def Gl.programIvResp : Gl → Nat → Nat → Int
  | .gl t => t.GetProgramiv
  | .gles t => t.GetProgramiv

def Gl.shaderIvResp : Gl → Nat → Nat → Int
  | .gl t => t.GetShaderiv
  | .gles t => t.GetShaderiv

def Gl.programInfoLogResp : Gl → Nat → Int → Int × List Nat
  | .gl t => t.GetProgramInfoLog
  | .gles t => t.GetProgramInfoLog

def Gl.shaderInfoLogResp : Gl → Nat → Int → Int × List Nat
  | .gl t => t.GetShaderInfoLog
  | .gles t => t.GetShaderInfoLog

def Gl.activeUniformResp : Gl → Nat → Nat → Int → Int × Int × Nat × List Nat
  | .gl t => t.GetActiveUniform
  | .gles t => t.GetActiveUniform

def Gl.tfVaryingResp : Gl → Nat → Nat → Int → Int × Int × Nat × List Nat
  | .gl t => t.GetTransformFeedbackVarying
  | .gles t => t.GetTransformFeedbackVarying

def Gl.readPixelsResp : Gl → Int → Int → Int → Int → Nat → Nat → List Nat
  | .gl t => t.ReadPixels
  | .gles t => t.ReadPixels

def Gl.uniformIvResp : Gl → Nat → Int → List Int
  | .gl t => t.GetUniformiv
  | .gles t => t.GetUniformiv

/-! ## Dispatcher operations

Each operation returns the list of native calls it issued, paired with its
result; `none` stands for a panic (failed assertion, `unwrap`, or
`unreachable`).  Out-buffers mutated in place by the source are returned. -/

/-- `get_integer_v`: asserts the result buffer is non-empty, then has the
driver write into it (one value for the single-valued `pname`s this module
queries). -/
def Gl.get_integer_v (g : Gl) (name : Nat) (result : List Int) :
    List Call × Option (List Int) :=
  if result.isEmpty then ([], none)
  else
    match g with
    | .gl t => ([Call.getIntegerv name], some (result.set 0 (t.GetIntegerv name)))
    | .gles t => ([Call.getIntegerv name], some (result.set 0 (t.GetIntegerv name)))

/-- `get_uniform_iv`: forwards the caller's result buffer to the driver with
no emptiness assertion. -/
def Gl.get_uniform_iv (g : Gl) (program : Nat) (location : Int)
    (result : List Int) : List Call × List Int :=
  match g with
  | .gl t =>
    ([Call.getUniformiv program location],
      overwrite result (t.GetUniformiv program location))
  | .gles t =>
    ([Call.getUniformiv program location],
      overwrite result (t.GetUniformiv program location))

/-- `tex_image_2d`: for a `BufferOffset` source, queries
`PIXEL_UNPACK_BUFFER_BINDING` and asserts the binding is non-zero before
forwarding the offset as the data pointer. -/
def Gl.tex_image_2d (g : Gl) (target : Nat)
    (level internal_format width height border : Int) (format ty : Nat)
    (source : TexImageSource) : List Call × Option Unit :=
  match source with
  | TexImageSource.Pixels pixels =>
    let data := match pixels with
      | some d => DataPtr.host d
      | none => DataPtr.null
    ([Call.texImage2D target level internal_format width height border format ty data],
      some ())
  | TexImageSource.BufferOffset offset =>
    match g.get_integer_v ffi.PIXEL_UNPACK_BUFFER_BINDING [0] with
    | (calls, some buffer) =>
      if buffer.headD 0 ≠ 0 then
        (calls ++
          [Call.texImage2D target level internal_format width height border
            format ty (DataPtr.offset offset)], some ())
      else (calls, none)
    | (calls, none) => (calls, none)

/-- `pixel_store_i`. -/
def Gl.pixel_store_i (g : Gl) (name : Nat) (param : Int) : List Call :=
  match g with
  | .gl _ => [Call.pixelStorei name param]
  | .gles _ => [Call.pixelStorei name param]

/-- `read_pixels_into_buffer`: asserts the caller buffer's length equals the
calculated byte count, forces `PACK_ALIGNMENT` to 1, then reads back. -/
def Gl.read_pixels_into_buffer (g : Gl) (x y width height : Int)
    (format pixel_type : Nat) (buffer : List Nat) :
    List Call × Option (List Nat) :=
  match calculate_length width height format pixel_type with
  | none => ([], none)
  | some len =>
    if len = buffer.length then
      let calls := g.pixel_store_i ffi.PACK_ALIGNMENT 1
      match g with
      | .gl t =>
        (calls ++
          [Call.readPixels x y width height format pixel_type (DataPtr.host buffer)],
          some (overwrite buffer (t.ReadPixels x y width height format pixel_type)))
      | .gles t =>
        (calls ++
          [Call.readPixels x y width height format pixel_type (DataPtr.host buffer)],
          some (overwrite buffer (t.ReadPixels x y width height format pixel_type)))
    else ([], none)

/-- `read_pixels_into_pixel_pack_buffer`: forwards unconditionally to
`ReadPixels` with the byte offset as the destination pointer. -/
def Gl.read_pixels_into_pixel_pack_buffer (g : Gl) (x y width height : Int)
    (format pixel_type : Nat) (buffer_byte_offset : Nat) : List Call :=
  match g with
  | .gl _ =>
    [Call.readPixels x y width height format pixel_type
      (DataPtr.offset (Int.ofNat buffer_byte_offset))]
  | .gles _ =>
    [Call.readPixels x y width height format pixel_type
      (DataPtr.offset (Int.ofNat buffer_byte_offset))]

/-- `read_pixels`: allocates a buffer of the calculated length (contents
uninitialized in the source, unobserved before the driver overwrites them)
and delegates to `read_pixels_into_buffer`. -/
def Gl.read_pixels (g : Gl) (x y width height : Int)
    (format pixel_type : Nat) : List Call × Option (List Nat) :=
  match calculate_length width height format pixel_type with
  | none => ([], none)
  | some len =>
    g.read_pixels_into_buffer x y width height format pixel_type
      (List.replicate len 0)

/-- `get_shader_precision_format`: the desktop table answers from a fixed
fallback without touching the driver; the embedded table pre-seeds the
out-parameters, issues the native query, then consumes `GetError`. -/
def Gl.get_shader_precision_format (g : Gl) (shader_type precision_type : Nat) :
    List Call × Option (Int × Int × Int) :=
  match g with
  | .gl _ =>
    if precision_type = ffi.LOW_FLOAT ∨ precision_type = ffi.MEDIUM_FLOAT ∨
        precision_type = ffi.HIGH_FLOAT then
      ([], some (127, 127, 23))
    else if precision_type = ffi.LOW_INT ∨ precision_type = ffi.MEDIUM_INT ∨
        precision_type = ffi.HIGH_INT then
      ([], some (24, 24, 0))
    else ([], some (0, 0, 0))
  | .gles t =>
    if precision_type = ffi.LOW_INT ∨ precision_type = ffi.MEDIUM_INT ∨
        precision_type = ffi.HIGH_INT then
      let out := t.GetShaderPrecisionFormat shader_type precision_type (31, 30) 0
      ([Call.getShaderPrecisionFormat shader_type precision_type (31, 30) 0,
        Call.getError], some (out.1.1, out.1.2, out.2))
    else if precision_type = ffi.LOW_FLOAT ∨ precision_type = ffi.MEDIUM_FLOAT ∨
        precision_type = ffi.HIGH_FLOAT then
      let out := t.GetShaderPrecisionFormat shader_type precision_type (127, 127) 23
      ([Call.getShaderPrecisionFormat shader_type precision_type (127, 127) 23,
        Call.getError], some (out.1.1, out.1.2, out.2))
    else ([], none)

/-- `get_program_iv`: asserts the result buffer is non-empty, then has the
driver write into it. -/
def Gl.get_program_iv (g : Gl) (program pname : Nat) (result : List Int) :
    List Call × Option (List Int) :=
  if result.isEmpty then ([], none)
  else
    match g with
    | .gl t =>
      ([Call.getProgramiv program pname], some (result.set 0 (t.GetProgramiv program pname)))
    | .gles t =>
      ([Call.getProgramiv program pname], some (result.set 0 (t.GetProgramiv program pname)))

/-- `get_shader_iv`: asserts the result buffer is non-empty, then has the
driver write into it. -/
def Gl.get_shader_iv (g : Gl) (shader pname : Nat) (result : List Int) :
    List Call × Option (List Int) :=
  if result.isEmpty then ([], none)
  else
    match g with
    | .gl t =>
      ([Call.getShaderiv shader pname], some (result.set 0 (t.GetShaderiv shader pname)))
    | .gles t =>
      ([Call.getShaderiv shader pname], some (result.set 0 (t.GetShaderiv shader pname)))

/-- `get_program_info_log`: queries `INFO_LOG_LENGTH`, returns an empty
string when it is 0, otherwise retrieves into a buffer of that capacity and
truncates to the length the driver reports as written. -/
def Gl.get_program_info_log (g : Gl) (program : Nat) :
    List Call × Option (List Nat) :=
  match g.get_program_iv program ffi.INFO_LOG_LENGTH [0] with
  | (calls, none) => (calls, none)
  | (calls, some max_len_buf) =>
    let max_len := max_len_buf.headD 0
    if max_len = 0 then (calls, some [])
    else
      let result := List.replicate (usizeOfI32 max_len) 0
      match g with
      | .gl t =>
        let out := t.GetProgramInfoLog program max_len
        (calls ++ [Call.getProgramInfoLog program max_len],
          rustStringFromUtf8
            ((overwrite result out.2).take (if out.1 > 0 then out.1.toNat else 0)))
      | .gles t =>
        let out := t.GetProgramInfoLog program max_len
        (calls ++ [Call.getProgramInfoLog program max_len],
          rustStringFromUtf8
            ((overwrite result out.2).take (if out.1 > 0 then out.1.toNat else 0)))

/-- `get_shader_info_log`: same shape as `get_program_info_log`. -/
def Gl.get_shader_info_log (g : Gl) (shader : Nat) :
    List Call × Option (List Nat) :=
  match g.get_shader_iv shader ffi.INFO_LOG_LENGTH [0] with
  | (calls, none) => (calls, none)
  | (calls, some max_len_buf) =>
    let max_len := max_len_buf.headD 0
    if max_len = 0 then (calls, some [])
    else
      let result := List.replicate (usizeOfI32 max_len) 0
      match g with
      | .gl t =>
        let out := t.GetShaderInfoLog shader max_len
        (calls ++ [Call.getShaderInfoLog shader max_len],
          rustStringFromUtf8
            ((overwrite result out.2).take (if out.1 > 0 then out.1.toNat else 0)))
      | .gles t =>
        let out := t.GetShaderInfoLog shader max_len
        (calls ++ [Call.getShaderInfoLog shader max_len],
          rustStringFromUtf8
            ((overwrite result out.2).take (if out.1 > 0 then out.1.toNat else 0)))

/-- `get_active_uniform`: queries `ACTIVE_UNIFORM_MAX_LENGTH`, allocates a
name buffer of exactly that capacity (also when it is 0), issues the
retrieval call, truncates to the reported written length, and decodes. -/
def Gl.get_active_uniform (g : Gl) (program index : Nat) :
    List Call × Option (Int × Nat × List Nat) :=
  match g.get_program_iv program ffi.ACTIVE_UNIFORM_MAX_LENGTH [0] with
  | (calls, none) => (calls, none)
  | (calls, some buf_size_buf) =>
    let buf_size := buf_size_buf.headD 0
    let name := List.replicate (usizeOfI32 buf_size) 0
    match g with
    | .gl t =>
      let out := t.GetActiveUniform program index buf_size
      (calls ++ [Call.getActiveUniform program index buf_size],
        match rustStringFromUtf8
            ((overwrite name out.2.2.2).take (if out.1 > 0 then out.1.toNat else 0)) with
        | some s => some (out.2.1, out.2.2.1, s)
        | none => none)
    | .gles t =>
      let out := t.GetActiveUniform program index buf_size
      (calls ++ [Call.getActiveUniform program index buf_size],
        match rustStringFromUtf8
            ((overwrite name out.2.2.2).take (if out.1 > 0 then out.1.toNat else 0)) with
        | some s => some (out.2.1, out.2.2.1, s)
        | none => none)

/-- `bind_buffer_range`: asserts `offset >= 0` and `size >= 0`, then
forwards. -/
def Gl.bind_buffer_range (g : Gl) (program index buffer : Nat)
    (offset size : Int) : List Call × Option Unit :=
  if 0 ≤ offset then
    if 0 ≤ size then
      match g with
      | .gl _ => ([Call.bindBufferRange program index buffer offset size], some ())
      | .gles _ => ([Call.bindBufferRange program index buffer offset size], some ())
    else ([], none)
  else ([], none)

/-- `uniform_2fv`: forwards `values.len() as GLsizei / 2` as the vector
count; the `f32` entries themselves are opaque to the dispatcher. -/
def Gl.uniform_2fv {α : Type} (g : Gl) (location : Int) (values : List α) :
    List Call :=
  let len := Int.tdiv (wrapI32 (Int.ofNat values.length)) 2
  match g with
  | .gl _ => [Call.uniform2fv location len]
  | .gles _ => [Call.uniform2fv location len]

/-- `gen_queries`: on the embedded table, returns an empty vector without
calling the driver when `GenQueriesEXT` is not loaded. -/
def Gl.gen_queries (g : Gl) (n : Int) : List Call × List Nat :=
  match g with
  | .gles t =>
    match t.GenQueriesEXT with
    | none => ([], [])
    | some f =>
      ([Call.genQueriesEXT n], overwrite (List.replicate (usizeOfI32 n) 0) (f n))
  | .gl t =>
    ([Call.genQueries n], overwrite (List.replicate (usizeOfI32 n) 0) (t.GenQueries n))

/-- `begin_query`. -/
def Gl.begin_query (g : Gl) (target id : Nat) : List Call :=
  match g with
  | .gl _ => [Call.beginQuery target id]
  | .gles t =>
    match t.BeginQueryEXT with
    | some _ => [Call.beginQueryEXT target id]
    | none => []

/-- `end_query`. -/
def Gl.end_query (g : Gl) (target : Nat) : List Call :=
  match g with
  | .gl _ => [Call.endQuery target]
  | .gles t =>
    match t.EndQueryEXT with
    | some _ => [Call.endQueryEXT target]
    | none => []

/-- `delete_queries`. -/
def Gl.delete_queries (g : Gl) (ids : List Nat) : List Call :=
  match g with
  | .gl _ => [Call.deleteQueries ids]
  | .gles t =>
    match t.DeleteQueriesEXT with
    | some _ => [Call.deleteQueriesEXT ids]
    | none => []

/-- `is_query`. -/
def Gl.is_query (g : Gl) (id : Nat) : List Call × Bool :=
  match g with
  | .gl t => ([Call.isQuery id], ffi.TRUE == t.IsQuery id)
  | .gles t =>
    match t.IsQueryEXT with
    | some f => ([Call.isQueryEXT id], ffi.TRUE == f id)
    | none => ([], ffi.TRUE == ffi.FALSE)

/-- `get_query_iv`. -/
def Gl.get_query_iv (g : Gl) (target pname : Nat) : List Call × Int :=
  match g with
  | .gl t => ([Call.getQueryiv target pname], t.GetQueryiv target pname)
  | .gles t =>
    match t.GetQueryivEXT with
    | some f => ([Call.getQueryivEXT target pname], f target pname)
    | none => ([], 0)

/-- `get_query_object_iv`. -/
def Gl.get_query_object_iv (g : Gl) (id pname : Nat) : List Call × Int :=
  match g with
  | .gl t => ([Call.getQueryObjectiv id pname], t.GetQueryObjectiv id pname)
  | .gles t =>
    match t.GetQueryObjectivEXT with
    | some f => ([Call.getQueryObjectivEXT id pname], f id pname)
    | none => ([], 0)

/-- `get_query_object_uiv`. -/
def Gl.get_query_object_uiv (g : Gl) (id pname : Nat) : List Call × Nat :=
  match g with
  | .gl t => ([Call.getQueryObjectuiv id pname], t.GetQueryObjectuiv id pname)
  | .gles t =>
    match t.GetQueryObjectuivEXT with
    | some f => ([Call.getQueryObjectuivEXT id pname], f id pname)
    | none => ([], 0)

/-- `get_query_object_i64v`. -/
def Gl.get_query_object_i64v (g : Gl) (id pname : Nat) : List Call × Int :=
  match g with
  | .gl t => ([Call.getQueryObjecti64v id pname], t.GetQueryObjecti64v id pname)
  | .gles t =>
    match t.GetQueryObjecti64vEXT with
    | some f => ([Call.getQueryObjecti64vEXT id pname], f id pname)
    | none => ([], 0)

/-- `get_query_object_ui64v`. -/
def Gl.get_query_object_ui64v (g : Gl) (id pname : Nat) : List Call × Nat :=
  match g with
  | .gl t => ([Call.getQueryObjectui64v id pname], t.GetQueryObjectui64v id pname)
  | .gles t =>
    match t.GetQueryObjectui64vEXT with
    | some f => ([Call.getQueryObjectui64vEXT id pname], f id pname)
    | none => ([], 0)

/-- `get_transform_feedback_varying`: retrieves into a fixed 128-byte
buffer, takes the reported length, and decodes the bytes as given by the
driver. -/
def Gl.get_transform_feedback_varying (g : Gl) (program index : Nat) :
    List Call × Option (Int × Nat × List Nat) :=
  let buf_size : Int := 128
  let name : List Nat := List.replicate 128 0
  match g with
  | .gl t =>
    let out := t.GetTransformFeedbackVarying program index buf_size
    ([Call.getTransformFeedbackVarying program index buf_size],
      match rustStringFromUtf8 ((overwrite name out.2.2.2).take (usizeOfI32 out.1)) with
      | some s => some (out.2.1, out.2.2.1, s)
      | none => none)
  | .gles t =>
    let out := t.GetTransformFeedbackVarying program index buf_size
    ([Call.getTransformFeedbackVarying program index buf_size],
      match rustStringFromUtf8 ((overwrite name out.2.2.2).take (usizeOfI32 out.1)) with
      | some s => some (out.2.1, out.2.2.1, s)
      | none => none)

/-- `transform_feedback_varyings`: builds each C string by prepending the
two-character marker `"_u"` (bytes 0x5F 0x75) to the caller's name
(`CString::new` panics on an interior NUL), then forwards the list. -/
def Gl.transform_feedback_varyings (g : Gl) (program : Nat)
    (varyings : List (List Nat)) (buffer_mode : Nat) :
    List Call × Option Unit :=
  if varyings.all (fun v => v.all (fun b => b != 0)) then
    let c_varyings := varyings.map (fun v => [0x5F, 0x75] ++ v)
    match g with
    | .gl _ =>
      ([Call.transformFeedbackVaryings program (Int.ofNat varyings.length)
        c_varyings buffer_mode], some ())
    | .gles _ =>
      ([Call.transformFeedbackVaryings program (Int.ofNat varyings.length)
        c_varyings buffer_mode], some ())
  else ([], none)

/-- The truncated-to-reported-length name bytes a transform-feedback
introspection call yields (exactly as the driver wrote them). -/
def tfVaryingBytes (g : Gl) (program index : Nat) : List Nat :=
  (overwrite (List.replicate 128 0) (g.tfVaryingResp program index 128).2.2.2).take
    (usizeOfI32 (g.tfVaryingResp program index 128).1)

/-- The contents of a freshly allocated retrieval buffer of capacity `cap`
after the driver writes `written` into it. -/
def capBuffer (cap : Int) (written : List Nat) : List Nat :=
  overwrite (List.replicate (usizeOfI32 cap) 0) written

/-- Truncation of a retrieval buffer to the length the driver reports as
actually written (clamped at 0 from below). -/
def truncTo (reported : Int) (bytes : List Nat) : List Nat :=
  bytes.take (if reported > 0 then reported.toNat else 0)

/-! ## Concrete driver tables (used by closed witnesses) -/

/-- A desktop table whose every response is zero/empty (in particular, no
buffer is bound to any binding point). -/
def glTableZero : GlTable where
  GetIntegerv := fun _ => 0
  GetUniformiv := fun _ _ => []
  ReadPixels := fun _ _ _ _ _ _ => []
  GetProgramiv := fun _ _ => 0
  GetShaderiv := fun _ _ => 0
  GetProgramInfoLog := fun _ _ => (0, [])
  GetShaderInfoLog := fun _ _ => (0, [])
  GetActiveUniform := fun _ _ _ => (0, 0, 0, [])
  GetTransformFeedbackVarying := fun _ _ _ => (0, 0, 0, [])
  GenQueries := fun _ => []
  IsQuery := fun _ => 0
  GetQueryiv := fun _ _ => 0
  GetQueryObjectiv := fun _ _ => 0
  GetQueryObjectuiv := fun _ _ => 0
  GetQueryObjecti64v := fun _ _ => 0
  GetQueryObjectui64v := fun _ _ => 0

/-- A desktop table reporting buffer binding 1 everywhere. -/
def glTableOne : GlTable := { glTableZero with GetIntegerv := fun _ => 1 }

/-- A desktop table whose transform-feedback introspection reports the name
`"_uabc"` (marker still attached), length 5. -/
def glTableTF : GlTable :=
  { glTableZero with
    GetTransformFeedbackVarying := fun _ _ _ => (5, 1, 35, [95, 117, 97, 98, 99]) }

/-- A desktop table reporting info-log capacity 4 and writing a 3-byte
log. -/
def glTableLog : GlTable :=
  { glTableZero with
    GetProgramiv := fun _ _ => 4
    GetShaderiv := fun _ _ => 4
    GetProgramInfoLog := fun _ _ => (3, [97, 98, 99])
    GetShaderInfoLog := fun _ _ => (3, [100, 101, 102]) }

/-- An embedded table with no query extension entry point loaded; its
precision query is a stub that leaves the seeded out-parameters unchanged. -/
def glesNoExt : GlesTable where
  GetIntegerv := fun _ => 0
  GetUniformiv := fun _ _ => []
  ReadPixels := fun _ _ _ _ _ _ => []
  GetProgramiv := fun _ _ => 0
  GetShaderiv := fun _ _ => 0
  GetProgramInfoLog := fun _ _ => (0, [])
  GetShaderInfoLog := fun _ _ => (0, [])
  GetActiveUniform := fun _ _ _ => (0, 0, 0, [])
  GetTransformFeedbackVarying := fun _ _ _ => (0, 0, 0, [])
  GetShaderPrecisionFormat := fun _ _ r p => (r, p)
  GetError := 0
  GenQueriesEXT := none
  BeginQueryEXT := none
  EndQueryEXT := none
  DeleteQueriesEXT := none
  IsQueryEXT := none
  GetQueryivEXT := none
  GetQueryObjectivEXT := none
  GetQueryObjectuivEXT := none
  GetQueryObjecti64vEXT := none
  GetQueryObjectui64vEXT := none

/-- An embedded table with every query extension entry point loaded. -/
def glesExt : GlesTable :=
  { glesNoExt with
    GenQueriesEXT := some (fun _ => [7])
    BeginQueryEXT := some ()
    EndQueryEXT := some ()
    DeleteQueriesEXT := some ()
    IsQueryEXT := some (fun _ => 1)
    GetQueryivEXT := some (fun _ _ => 9)
    GetQueryObjectivEXT := some (fun _ _ => 9)
    GetQueryObjectuivEXT := some (fun _ _ => 9)
    GetQueryObjecti64vEXT := some (fun _ _ => 9)
    GetQueryObjectui64vEXT := some (fun _ _ => 9) }

/-! ## Lemmas and claim theorems -/

lemma spec_components_eq_formatColors :
    spec_componentsPerPixel = formatColors := rfl

lemma spec_bytes_eq_pixelTypeDepth :
    spec_bytesPerComponent = pixelTypeDepth := rfl

lemma spec_components_ge_one {f : Nat} {c : Int}
    (h : spec_componentsPerPixel f = some c) : 1 ≤ c := by
  unfold spec_componentsPerPixel at h
  split_ifs at h <;> (injection h with h) <;> omega

lemma spec_bytes_ge_one {t : Nat} {d : Int}
    (h : spec_bytesPerComponent t = some d) : 1 ≤ d := by
  unfold spec_bytesPerComponent at h
  split_ifs at h <;> (injection h with h) <;> omega

lemma wrapI32_of_lt {x : Int} (h0 : 0 ≤ x) (h1 : x < 2 ^ 31) :
    wrapI32 x = x := by
  unfold wrapI32
  rw [Int.emod_eq_of_lt (by omega) (by omega)]
  omega

lemma usizeOfI32_of_lt {x : Int} (h0 : 0 ≤ x) (h1 : x < 2 ^ 31) :
    usizeOfI32 x = x.toNat := by
  unfold usizeOfI32
  rw [Int.emod_eq_of_lt (by omega) (by omega)]

lemma calc_chain (w h c d : Int) (hw : 0 ≤ w) (hh : 0 ≤ h) (hc : 1 ≤ c)
    (hd : 1 ≤ d) (hlt : w * h * c * d < 2 ^ 31) :
    usizeOfI32 (wrapI32 (wrapI32 (wrapI32 (w * h) * c) * d)) =
      (w * h * c * d).toNat := by
  have h1 : 0 ≤ w * h := mul_nonneg hw hh
  have h2 : w * h ≤ w * h * c := le_mul_of_one_le_right h1 hc
  have h3 : 0 ≤ w * h * c := mul_nonneg h1 (by omega)
  have h4 : w * h * c ≤ w * h * c * d := le_mul_of_one_le_right h3 hd
  have h5 : 0 ≤ w * h * c * d := mul_nonneg h3 (by omega)
  rw [wrapI32_of_lt h1 (by omega), wrapI32_of_lt h3 (by omega),
    wrapI32_of_lt h5 hlt, usizeOfI32_of_lt h5 hlt]

/-- Claim C1: for every width, height, pixel layout and component type in
the supported closed set (in particular, with the product in the `i32`
range, where both Rust overflow profiles agree), `calculate_length` returns
`width * height * componentsPerPixel(layout) * bytesPerComponent(type)`. -/
theorem calculate_length_spec (width height : Int) (format pixel_type : Nat)
    (c d : Int) (hc : spec_componentsPerPixel format = some c)
    (hd : spec_bytesPerComponent pixel_type = some d) (hw : 0 ≤ width)
    (hh : 0 ≤ height) (hlt : width * height * c * d < 2 ^ 31) :
    calculate_length width height format pixel_type =
      some ((width * height * c * d).toNat) := by
  have hc1 : 1 ≤ c := spec_components_ge_one hc
  have hd1 : 1 ≤ d := spec_bytes_ge_one hd
  have hfc : formatColors format = some c := by
    rw [← spec_components_eq_formatColors]; exact hc
  have hfd : pixelTypeDepth pixel_type = some d := by
    rw [← spec_bytes_eq_pixelTypeDepth]; exact hd
  unfold calculate_length
  rw [hfc, hfd]
  show some (usizeOfI32 (wrapI32 (wrapI32 (wrapI32 (width * height) * c) * d))) = _
  rw [calc_chain width height c d hw hh hc1 hd1 hlt]

/-- Claim C1, witness: width 4, height 2, four-channel layout (RGBA),
unsigned-byte component type gives 32 bytes. -/
theorem calculate_length_spec_witness :
    spec_componentsPerPixel ffi.RGBA = some 4 ∧
      spec_bytesPerComponent ffi.UNSIGNED_BYTE = some 1 ∧
      calculate_length 4 2 ffi.RGBA ffi.UNSIGNED_BYTE = some 32 :=
  ⟨by decide, by decide,
    calculate_length_spec 4 2 ffi.RGBA ffi.UNSIGNED_BYTE 4 1 (by decide)
      (by decide) (by decide) (by decide) (by decide)⟩

/-! ## Claims about the precision query -/

/-- Claim C2: on the desktop backend, `get_shader_precision_format` returns
(127, 127, 23) for every floating precision type and (24, 24, 0) for every
integer precision type, with an empty native-call trace (no driver entry
point invoked), for every driver table (independent of driver state). -/
theorem desktop_precision_format (t : GlTable) (shader_type precision_type : Nat) :
    ((precision_type = ffi.LOW_FLOAT ∨ precision_type = ffi.MEDIUM_FLOAT ∨
        precision_type = ffi.HIGH_FLOAT) →
      (Gl.gl t).get_shader_precision_format shader_type precision_type =
        ([], some (127, 127, 23))) ∧
    ((precision_type = ffi.LOW_INT ∨ precision_type = ffi.MEDIUM_INT ∨
        precision_type = ffi.HIGH_INT) →
      (Gl.gl t).get_shader_precision_format shader_type precision_type =
        ([], some (24, 24, 0))) := by
  constructor <;> rintro (h | h | h) <;> subst h <;> rfl

/-- Claim C2, witness: HIGH_FLOAT and LOW_INT on a concrete zero table. -/
theorem desktop_precision_format_witness :
    (Gl.gl glTableZero).get_shader_precision_format 0 ffi.HIGH_FLOAT =
      ([], some (127, 127, 23)) ∧
    (Gl.gl glTableZero).get_shader_precision_format 0 ffi.LOW_INT =
      ([], some (24, 24, 0)) :=
  ⟨(desktop_precision_format glTableZero 0 ffi.HIGH_FLOAT).1 (Or.inr (Or.inr rfl)),
    (desktop_precision_format glTableZero 0 ffi.LOW_INT).2 (Or.inl rfl)⟩

/-- Claim C6: on the embedded backend, `get_shader_precision_format` seeds
the native query's out-parameters with the 32-bit two's-complement-integer
defaults (range (31, 30), precision 0) for integer precision types and the
IEEE-single-precision defaults (range (127, 127), precision 23) for
floating types, issues the native query with exactly those seeds, then
calls `GetError` (whose response is discarded: the result depends only on
what the native query wrote). -/
theorem embedded_precision_format (t : GlesTable) (shader_type precision_type : Nat) :
    ((precision_type = ffi.LOW_INT ∨ precision_type = ffi.MEDIUM_INT ∨
        precision_type = ffi.HIGH_INT) →
      (Gl.gles t).get_shader_precision_format shader_type precision_type =
        ([Call.getShaderPrecisionFormat shader_type precision_type (31, 30) 0,
          Call.getError],
          some ((t.GetShaderPrecisionFormat shader_type precision_type (31, 30) 0).1.1,
            (t.GetShaderPrecisionFormat shader_type precision_type (31, 30) 0).1.2,
            (t.GetShaderPrecisionFormat shader_type precision_type (31, 30) 0).2))) ∧
    ((precision_type = ffi.LOW_FLOAT ∨ precision_type = ffi.MEDIUM_FLOAT ∨
        precision_type = ffi.HIGH_FLOAT) →
      (Gl.gles t).get_shader_precision_format shader_type precision_type =
        ([Call.getShaderPrecisionFormat shader_type precision_type (127, 127) 23,
          Call.getError],
          some ((t.GetShaderPrecisionFormat shader_type precision_type (127, 127) 23).1.1,
            (t.GetShaderPrecisionFormat shader_type precision_type (127, 127) 23).1.2,
            (t.GetShaderPrecisionFormat shader_type precision_type (127, 127) 23).2))) := by
  constructor <;> rintro (h | h | h) <;> subst h <;> rfl

/-- Claim C6, witness: a stub driver that leaves the seeds unchanged yields
exactly the seeded defaults for HIGH_INT and HIGH_FLOAT. -/
theorem embedded_precision_format_witness :
    (Gl.gles glesNoExt).get_shader_precision_format 0 ffi.HIGH_INT =
      ([Call.getShaderPrecisionFormat 0 ffi.HIGH_INT (31, 30) 0, Call.getError],
        some (31, 30, 0)) ∧
    (Gl.gles glesNoExt).get_shader_precision_format 0 ffi.HIGH_FLOAT =
      ([Call.getShaderPrecisionFormat 0 ffi.HIGH_FLOAT (127, 127) 23, Call.getError],
        some (127, 127, 23)) :=
  ⟨(embedded_precision_format glesNoExt 0 ffi.HIGH_INT).1 (Or.inr (Or.inr rfl)),
    (embedded_precision_format glesNoExt 0 ffi.HIGH_FLOAT).2 (Or.inr (Or.inr rfl))⟩

/-! ## Claims about pixel-transfer guards -/

/-- Claim C4: `tex_image_2d` with a `BufferOffset` source first queries the
pixel-unpack buffer binding; when the queried binding is 0 it panics with
no `TexImage2D` call issued, and when the binding is non-zero it proceeds
with the offset as the data pointer. -/
theorem tex_image_2d_buffer_offset_guard (g : Gl) (target : Nat)
    (level internal_format width height border : Int) (format ty : Nat)
    (offset : Int) :
    (g.getIntegervResp ffi.PIXEL_UNPACK_BUFFER_BINDING = 0 →
      g.tex_image_2d target level internal_format width height border format ty
        (TexImageSource.BufferOffset offset) =
        ([Call.getIntegerv ffi.PIXEL_UNPACK_BUFFER_BINDING], none)) ∧
    (g.getIntegervResp ffi.PIXEL_UNPACK_BUFFER_BINDING ≠ 0 →
      g.tex_image_2d target level internal_format width height border format ty
        (TexImageSource.BufferOffset offset) =
        ([Call.getIntegerv ffi.PIXEL_UNPACK_BUFFER_BINDING,
          Call.texImage2D target level internal_format width height border
            format ty (DataPtr.offset offset)], some ())) := by
  constructor <;> intro h <;> cases g <;>
    simp_all [Gl.tex_image_2d, Gl.get_integer_v, Gl.getIntegervResp]

/-- Claim C4, witness: with no buffer bound the call panics after the state
query; with binding 1 it forwards the offset. -/
theorem tex_image_2d_buffer_offset_guard_witness :
    (Gl.gl glTableZero).tex_image_2d 1 0 0 4 4 0 2 3
        (TexImageSource.BufferOffset 16) =
      ([Call.getIntegerv ffi.PIXEL_UNPACK_BUFFER_BINDING], none) ∧
    (Gl.gl glTableOne).tex_image_2d 1 0 0 4 4 0 2 3
        (TexImageSource.BufferOffset 16) =
      ([Call.getIntegerv ffi.PIXEL_UNPACK_BUFFER_BINDING,
        Call.texImage2D 1 0 0 4 4 0 2 3 (DataPtr.offset 16)], some ()) :=
  ⟨(tex_image_2d_buffer_offset_guard (Gl.gl glTableZero) 1 0 0 4 4 0 2 3 16).1 rfl,
    (tex_image_2d_buffer_offset_guard (Gl.gl glTableOne) 1 0 0 4 4 0 2 3 16).2
      (by decide)⟩

/-- Claim C5: `read_pixels_into_buffer` panics before any driver call when
the caller buffer's length differs from the calculated byte count, and with
a buffer of exactly that length it proceeds (tight packing, then the
readback); `read_pixels` allocates a buffer of exactly the calculated
length and delegates, so its inner assertion never fires. -/
theorem read_pixels_length_guard (g : Gl) (x y width height : Int)
    (format pixel_type : Nat) (buffer : List Nat) (len : Nat)
    (hlen : calculate_length width height format pixel_type = some len) :
    (buffer.length ≠ len →
      g.read_pixels_into_buffer x y width height format pixel_type buffer =
        ([], none)) ∧
    (buffer.length = len →
      g.read_pixels_into_buffer x y width height format pixel_type buffer =
        ([Call.pixelStorei ffi.PACK_ALIGNMENT 1,
          Call.readPixels x y width height format pixel_type (DataPtr.host buffer)],
          some (overwrite buffer
            (g.readPixelsResp x y width height format pixel_type)))) ∧
    (g.read_pixels x y width height format pixel_type =
      ([Call.pixelStorei ffi.PACK_ALIGNMENT 1,
        Call.readPixels x y width height format pixel_type
          (DataPtr.host (List.replicate len 0))],
        some (overwrite (List.replicate len 0)
          (g.readPixelsResp x y width height format pixel_type)))) := by
  have key : ∀ (b : List Nat),
      g.read_pixels_into_buffer x y width height format pixel_type b =
        if len = b.length then
          ([Call.pixelStorei ffi.PACK_ALIGNMENT 1,
            Call.readPixels x y width height format pixel_type (DataPtr.host b)],
            some (overwrite b (g.readPixelsResp x y width height format pixel_type)))
        else ([], none) := by
    intro b
    cases g with
    | gl t =>
      unfold Gl.read_pixels_into_buffer
      simp only [hlen]
      try rfl
    | gles t =>
      unfold Gl.read_pixels_into_buffer
      simp only [hlen]
      try rfl
  refine ⟨fun hne => ?_, fun heq => ?_, ?_⟩
  · rw [key buffer, if_neg (by omega)]
  · rw [key buffer, if_pos (by omega)]
  · unfold Gl.read_pixels
    simp only [hlen]
    rw [key (List.replicate len 0), if_pos (by simp)]

/-- Claim C5, witness: one RED/UNSIGNED_BYTE pixel is 1 byte; a 2-byte
buffer trips the assertion before any driver call, a 1-byte buffer and the
allocating path proceed. -/
theorem read_pixels_length_guard_witness :
    (Gl.gl glTableZero).read_pixels_into_buffer 0 0 1 1 ffi.RED
        ffi.UNSIGNED_BYTE [5, 6] = ([], none) ∧
    (Gl.gl glTableZero).read_pixels_into_buffer 0 0 1 1 ffi.RED
        ffi.UNSIGNED_BYTE [7] =
      ([Call.pixelStorei ffi.PACK_ALIGNMENT 1,
        Call.readPixels 0 0 1 1 ffi.RED ffi.UNSIGNED_BYTE (DataPtr.host [7])],
        some [7]) ∧
    (Gl.gl glTableZero).read_pixels 0 0 1 1 ffi.RED ffi.UNSIGNED_BYTE =
      ([Call.pixelStorei ffi.PACK_ALIGNMENT 1,
        Call.readPixels 0 0 1 1 ffi.RED ffi.UNSIGNED_BYTE (DataPtr.host [0])],
        some [0]) :=
  ⟨(read_pixels_length_guard (Gl.gl glTableZero) 0 0 1 1 ffi.RED
      ffi.UNSIGNED_BYTE [5, 6] 1 (by decide)).1 (by decide),
    (read_pixels_length_guard (Gl.gl glTableZero) 0 0 1 1 ffi.RED
      ffi.UNSIGNED_BYTE [7] 1 (by decide)).2.1 (by decide),
    (read_pixels_length_guard (Gl.gl glTableZero) 0 0 1 1 ffi.RED
      ffi.UNSIGNED_BYTE [7] 1 (by decide)).2.2⟩

/-- Claim C10: `read_pixels_into_pixel_pack_buffer` forwards unconditionally
to `ReadPixels` with the byte offset as destination pointer: for every
input its trace is exactly that one call (in particular it issues no state
query and no pixel-store call, validates nothing, and cannot panic — its
result type is total). -/
theorem read_pixels_pack_buffer_unguarded (g : Gl) (x y width height : Int)
    (format pixel_type : Nat) (buffer_byte_offset : Nat) :
    g.read_pixels_into_pixel_pack_buffer x y width height format pixel_type
        buffer_byte_offset =
      [Call.readPixels x y width height format pixel_type
        (DataPtr.offset (Int.ofNat buffer_byte_offset))] ∧
    (∀ pname, Call.getIntegerv pname ∉
      g.read_pixels_into_pixel_pack_buffer x y width height format pixel_type
        buffer_byte_offset) ∧
    (∀ pname param, Call.pixelStorei pname param ∉
      g.read_pixels_into_pixel_pack_buffer x y width height format pixel_type
        buffer_byte_offset) := by
  refine ⟨?_, ?_, ?_⟩ <;> cases g <;>
    simp [Gl.read_pixels_into_pixel_pack_buffer]

/-! ## Claim about extension-gated query operations -/

/-- Claim C3: on the embedded backend every guarded query operation issues
no driver call and returns its zero/empty/false default when the
corresponding extension entry point is not loaded, and forwards to the
extension entry point when it is loaded; on the desktop backend the core
entry point is invoked unconditionally. -/
theorem query_extension_guards (te : GlesTable) (tg : GlTable) (n : Int)
    (target id pname : Nat) (ids : List Nat) :
    (te.GenQueriesEXT = none → (Gl.gles te).gen_queries n = ([], [])) ∧
    (∀ f, te.GenQueriesEXT = some f → (Gl.gles te).gen_queries n =
      ([Call.genQueriesEXT n], overwrite (List.replicate (usizeOfI32 n) 0) (f n))) ∧
    ((Gl.gl tg).gen_queries n =
      ([Call.genQueries n],
        overwrite (List.replicate (usizeOfI32 n) 0) (tg.GenQueries n))) ∧
    (te.BeginQueryEXT = none → (Gl.gles te).begin_query target id = []) ∧
    (te.BeginQueryEXT = some () →
      (Gl.gles te).begin_query target id = [Call.beginQueryEXT target id]) ∧
    ((Gl.gl tg).begin_query target id = [Call.beginQuery target id]) ∧
    (te.EndQueryEXT = none → (Gl.gles te).end_query target = []) ∧
    (te.EndQueryEXT = some () →
      (Gl.gles te).end_query target = [Call.endQueryEXT target]) ∧
    ((Gl.gl tg).end_query target = [Call.endQuery target]) ∧
    (te.DeleteQueriesEXT = none → (Gl.gles te).delete_queries ids = []) ∧
    (te.DeleteQueriesEXT = some () →
      (Gl.gles te).delete_queries ids = [Call.deleteQueriesEXT ids]) ∧
    ((Gl.gl tg).delete_queries ids = [Call.deleteQueries ids]) ∧
    (te.IsQueryEXT = none → (Gl.gles te).is_query id = ([], false)) ∧
    (∀ f, te.IsQueryEXT = some f →
      (Gl.gles te).is_query id = ([Call.isQueryEXT id], ffi.TRUE == f id)) ∧
    ((Gl.gl tg).is_query id = ([Call.isQuery id], ffi.TRUE == tg.IsQuery id)) ∧
    (te.GetQueryivEXT = none → (Gl.gles te).get_query_iv target pname = ([], 0)) ∧
    (∀ f, te.GetQueryivEXT = some f → (Gl.gles te).get_query_iv target pname =
      ([Call.getQueryivEXT target pname], f target pname)) ∧
    ((Gl.gl tg).get_query_iv target pname =
      ([Call.getQueryiv target pname], tg.GetQueryiv target pname)) ∧
    (te.GetQueryObjectivEXT = none →
      (Gl.gles te).get_query_object_iv id pname = ([], 0)) ∧
    (∀ f, te.GetQueryObjectivEXT = some f →
      (Gl.gles te).get_query_object_iv id pname =
        ([Call.getQueryObjectivEXT id pname], f id pname)) ∧
    ((Gl.gl tg).get_query_object_iv id pname =
      ([Call.getQueryObjectiv id pname], tg.GetQueryObjectiv id pname)) ∧
    (te.GetQueryObjectuivEXT = none →
      (Gl.gles te).get_query_object_uiv id pname = ([], 0)) ∧
    (∀ f, te.GetQueryObjectuivEXT = some f →
      (Gl.gles te).get_query_object_uiv id pname =
        ([Call.getQueryObjectuivEXT id pname], f id pname)) ∧
    ((Gl.gl tg).get_query_object_uiv id pname =
      ([Call.getQueryObjectuiv id pname], tg.GetQueryObjectuiv id pname)) ∧
    (te.GetQueryObjecti64vEXT = none →
      (Gl.gles te).get_query_object_i64v id pname = ([], 0)) ∧
    (∀ f, te.GetQueryObjecti64vEXT = some f →
      (Gl.gles te).get_query_object_i64v id pname =
        ([Call.getQueryObjecti64vEXT id pname], f id pname)) ∧
    ((Gl.gl tg).get_query_object_i64v id pname =
      ([Call.getQueryObjecti64v id pname], tg.GetQueryObjecti64v id pname)) ∧
    (te.GetQueryObjectui64vEXT = none →
      (Gl.gles te).get_query_object_ui64v id pname = ([], 0)) ∧
    (∀ f, te.GetQueryObjectui64vEXT = some f →
      (Gl.gles te).get_query_object_ui64v id pname =
        ([Call.getQueryObjectui64vEXT id pname], f id pname)) ∧
    ((Gl.gl tg).get_query_object_ui64v id pname =
      ([Call.getQueryObjectui64v id pname], tg.GetQueryObjectui64v id pname)) := by
  refine ⟨fun h => ?_, fun f h => ?_, ?_, fun h => ?_, fun h => ?_, ?_,
    fun h => ?_, fun h => ?_, ?_, fun h => ?_, fun h => ?_, ?_,
    fun h => ?_, fun f h => ?_, ?_, fun h => ?_, fun f h => ?_, ?_,
    fun h => ?_, fun f h => ?_, ?_, fun h => ?_, fun f h => ?_, ?_,
    fun h => ?_, fun f h => ?_, ?_, fun h => ?_, fun f h => ?_, ?_⟩ <;>
  simp_all [Gl.gen_queries, Gl.begin_query, Gl.end_query, Gl.delete_queries,
    Gl.is_query, Gl.get_query_iv, Gl.get_query_object_iv,
    Gl.get_query_object_uiv, Gl.get_query_object_i64v,
    Gl.get_query_object_ui64v, ffi.TRUE, ffi.FALSE]

/-- Claim C3, witness: with no extension loaded every guarded operation is
silent and yields its default; with the extensions loaded each one forwards
to the EXT entry point; the desktop table always calls the core entry
point. -/
theorem query_extension_guards_witness :
    (Gl.gles glesNoExt).gen_queries 3 = ([], []) ∧
    (Gl.gles glesExt).gen_queries 1 = ([Call.genQueriesEXT 1], [7]) ∧
    (Gl.gl glTableZero).gen_queries 1 = ([Call.genQueries 1], [0]) ∧
    (Gl.gles glesNoExt).begin_query 1 4 = [] ∧
    (Gl.gles glesExt).begin_query 1 4 = [Call.beginQueryEXT 1 4] ∧
    (Gl.gl glTableZero).begin_query 1 4 = [Call.beginQuery 1 4] ∧
    (Gl.gles glesNoExt).end_query 1 = [] ∧
    (Gl.gles glesExt).end_query 1 = [Call.endQueryEXT 1] ∧
    (Gl.gles glesNoExt).delete_queries [4] = [] ∧
    (Gl.gles glesExt).delete_queries [4] = [Call.deleteQueriesEXT [4]] ∧
    (Gl.gles glesNoExt).is_query 4 = ([], false) ∧
    (Gl.gles glesExt).is_query 4 = ([Call.isQueryEXT 4], true) ∧
    (Gl.gles glesNoExt).get_query_iv 1 2 = ([], 0) ∧
    (Gl.gles glesExt).get_query_iv 1 2 = ([Call.getQueryivEXT 1 2], 9) ∧
    (Gl.gles glesNoExt).get_query_object_iv 4 2 = ([], 0) ∧
    (Gl.gles glesExt).get_query_object_iv 4 2 = ([Call.getQueryObjectivEXT 4 2], 9) ∧
    (Gl.gles glesNoExt).get_query_object_uiv 4 2 = ([], 0) ∧
    (Gl.gles glesExt).get_query_object_uiv 4 2 = ([Call.getQueryObjectuivEXT 4 2], 9) ∧
    (Gl.gles glesNoExt).get_query_object_i64v 4 2 = ([], 0) ∧
    (Gl.gles glesExt).get_query_object_i64v 4 2 = ([Call.getQueryObjecti64vEXT 4 2], 9) ∧
    (Gl.gles glesNoExt).get_query_object_ui64v 4 2 = ([], 0) ∧
    (Gl.gles glesExt).get_query_object_ui64v 4 2 = ([Call.getQueryObjectui64vEXT 4 2], 9) := by
  obtain ⟨a1, a2, a3, a4, a5, a6, a7, a8, a9, a10, a11, a12, a13, a14, a15,
    a16, a17, a18, a19, a20, a21, a22, a23, a24, a25, a26, a27, a28, a29, a30⟩ :=
    query_extension_guards glesExt glTableZero 1 1 4 2 [4]
  obtain ⟨b1, b2, b3, b4, b5, b6, b7, b8, b9, b10, b11, b12, b13, b14, b15,
    b16, b17, b18, b19, b20, b21, b22, b23, b24, b25, b26, b27, b28, b29, b30⟩ :=
    query_extension_guards glesNoExt glTableZero 3 1 4 2 [4]
  exact ⟨b1 rfl, a2 _ rfl, a3, b4 rfl, a5 rfl, a6, b7 rfl, a8 rfl, b10 rfl,
    a11 rfl, b13 rfl, a14 _ rfl, b16 rfl, a17 _ rfl, b19 rfl, a20 _ rfl,
    b22 rfl, a23 _ rfl, b25 rfl, a26 _ rfl, b28 rfl, a29 _ rfl⟩

/-! ## Claims about string-returning introspection -/

lemma rustStringFromUtf8_some {bs s : List Nat}
    (h : rustStringFromUtf8 bs = some s) : s = bs := by
  unfold rustStringFromUtf8 at h
  split_ifs at h
  injection h with h
  exact h.symm

lemma program_info_log_eq (g : Gl) (program : Nat) :
    g.get_program_info_log program =
      if g.programIvResp program ffi.INFO_LOG_LENGTH = 0 then
        ([Call.getProgramiv program ffi.INFO_LOG_LENGTH], some [])
      else
        ([Call.getProgramiv program ffi.INFO_LOG_LENGTH,
          Call.getProgramInfoLog program (g.programIvResp program ffi.INFO_LOG_LENGTH)],
          rustStringFromUtf8 (truncTo
            (g.programInfoLogResp program (g.programIvResp program ffi.INFO_LOG_LENGTH)).1
            (capBuffer (g.programIvResp program ffi.INFO_LOG_LENGTH)
              (g.programInfoLogResp program
                (g.programIvResp program ffi.INFO_LOG_LENGTH)).2))) := by
  cases g <;> rfl

lemma shader_info_log_eq (g : Gl) (shader : Nat) :
    g.get_shader_info_log shader =
      if g.shaderIvResp shader ffi.INFO_LOG_LENGTH = 0 then
        ([Call.getShaderiv shader ffi.INFO_LOG_LENGTH], some [])
      else
        ([Call.getShaderiv shader ffi.INFO_LOG_LENGTH,
          Call.getShaderInfoLog shader (g.shaderIvResp shader ffi.INFO_LOG_LENGTH)],
          rustStringFromUtf8 (truncTo
            (g.shaderInfoLogResp shader (g.shaderIvResp shader ffi.INFO_LOG_LENGTH)).1
            (capBuffer (g.shaderIvResp shader ffi.INFO_LOG_LENGTH)
              (g.shaderInfoLogResp shader
                (g.shaderIvResp shader ffi.INFO_LOG_LENGTH)).2))) := by
  cases g <;> rfl

lemma active_uniform_eq (g : Gl) (program index : Nat) :
    g.get_active_uniform program index =
      ([Call.getProgramiv program ffi.ACTIVE_UNIFORM_MAX_LENGTH,
        Call.getActiveUniform program index
          (g.programIvResp program ffi.ACTIVE_UNIFORM_MAX_LENGTH)],
        match rustStringFromUtf8 (truncTo
            (g.activeUniformResp program index
              (g.programIvResp program ffi.ACTIVE_UNIFORM_MAX_LENGTH)).1
            (capBuffer (g.programIvResp program ffi.ACTIVE_UNIFORM_MAX_LENGTH)
              (g.activeUniformResp program index
                (g.programIvResp program ffi.ACTIVE_UNIFORM_MAX_LENGTH)).2.2.2)) with
        | some s => some
            ((g.activeUniformResp program index
              (g.programIvResp program ffi.ACTIVE_UNIFORM_MAX_LENGTH)).2.1,
              (g.activeUniformResp program index
                (g.programIvResp program ffi.ACTIVE_UNIFORM_MAX_LENGTH)).2.2.1, s)
        | none => none) := by
  cases g <;> rfl

/-- Claim C7, counterexample: with a driver reporting required length 0,
`get_active_uniform` does issue the retrieval call, with a zero-capacity
buffer (the claim states no such retrieval is issued for any of the three
operations); the returned name is still empty. -/
theorem get_active_uniform_zero_capacity_counterexample :
    (Gl.gl glTableZero).programIvResp 1 ffi.ACTIVE_UNIFORM_MAX_LENGTH = 0 ∧
    Call.getActiveUniform 1 0 0 ∈ ((Gl.gl glTableZero).get_active_uniform 1 0).1 ∧
    ((Gl.gl glTableZero).get_active_uniform 1 0).2 = some (0, 0, []) := by
  refine ⟨rfl, ?_, rfl⟩
  have h : ((Gl.gl glTableZero).get_active_uniform 1 0).1 =
      [Call.getProgramiv 1 ffi.ACTIVE_UNIFORM_MAX_LENGTH,
        Call.getActiveUniform 1 0 0] := rfl
  rw [h]
  simp

/-- Claim C7, as amended: the two info-log operations return an empty
string and issue no retrieval call when the driver-reported required length
is 0, and otherwise return the UTF-8 decoding of exactly the retrieval
bytes truncated to the reported written length; `get_active_uniform`,
however, always issues the retrieval call with the reported capacity (a
zero-capacity buffer when that is 0), and returns the UTF-8 decoding of the
truncated bytes. -/
theorem string_introspection_roundtrip (g : Gl) (program shader index : Nat) :
    (g.programIvResp program ffi.INFO_LOG_LENGTH = 0 →
      g.get_program_info_log program =
        ([Call.getProgramiv program ffi.INFO_LOG_LENGTH], some [])) ∧
    (g.programIvResp program ffi.INFO_LOG_LENGTH ≠ 0 →
      g.get_program_info_log program =
        ([Call.getProgramiv program ffi.INFO_LOG_LENGTH,
          Call.getProgramInfoLog program (g.programIvResp program ffi.INFO_LOG_LENGTH)],
          rustStringFromUtf8 (truncTo
            (g.programInfoLogResp program (g.programIvResp program ffi.INFO_LOG_LENGTH)).1
            (capBuffer (g.programIvResp program ffi.INFO_LOG_LENGTH)
              (g.programInfoLogResp program
                (g.programIvResp program ffi.INFO_LOG_LENGTH)).2)))) ∧
    (g.shaderIvResp shader ffi.INFO_LOG_LENGTH = 0 →
      g.get_shader_info_log shader =
        ([Call.getShaderiv shader ffi.INFO_LOG_LENGTH], some [])) ∧
    (g.shaderIvResp shader ffi.INFO_LOG_LENGTH ≠ 0 →
      g.get_shader_info_log shader =
        ([Call.getShaderiv shader ffi.INFO_LOG_LENGTH,
          Call.getShaderInfoLog shader (g.shaderIvResp shader ffi.INFO_LOG_LENGTH)],
          rustStringFromUtf8 (truncTo
            (g.shaderInfoLogResp shader (g.shaderIvResp shader ffi.INFO_LOG_LENGTH)).1
            (capBuffer (g.shaderIvResp shader ffi.INFO_LOG_LENGTH)
              (g.shaderInfoLogResp shader
                (g.shaderIvResp shader ffi.INFO_LOG_LENGTH)).2)))) ∧
    (Call.getActiveUniform program index
        (g.programIvResp program ffi.ACTIVE_UNIFORM_MAX_LENGTH) ∈
      (g.get_active_uniform program index).1) ∧
    (∀ size ty name, (g.get_active_uniform program index).2 = some (size, ty, name) →
      name = truncTo
        (g.activeUniformResp program index
          (g.programIvResp program ffi.ACTIVE_UNIFORM_MAX_LENGTH)).1
        (capBuffer (g.programIvResp program ffi.ACTIVE_UNIFORM_MAX_LENGTH)
          (g.activeUniformResp program index
            (g.programIvResp program ffi.ACTIVE_UNIFORM_MAX_LENGTH)).2.2.2)) := by
  refine ⟨fun h => ?_, fun h => ?_, fun h => ?_, fun h => ?_, ?_, ?_⟩
  · rw [program_info_log_eq, if_pos h]
  · rw [program_info_log_eq, if_neg h]
  · rw [shader_info_log_eq, if_pos h]
  · rw [shader_info_log_eq, if_neg h]
  · rw [active_uniform_eq]
    simp
  · intro size ty name h
    rw [active_uniform_eq] at h
    simp only [] at h
    rcases hB : rustStringFromUtf8 (truncTo
        (g.activeUniformResp program index
          (g.programIvResp program ffi.ACTIVE_UNIFORM_MAX_LENGTH)).1
        (capBuffer (g.programIvResp program ffi.ACTIVE_UNIFORM_MAX_LENGTH)
          (g.activeUniformResp program index
            (g.programIvResp program ffi.ACTIVE_UNIFORM_MAX_LENGTH)).2.2.2)) with
      _ | s
    · rw [hB] at h
      simp at h
    · rw [hB] at h
      simp only [Option.some.injEq, Prod.mk.injEq] at h
      obtain ⟨-, -, h3⟩ := h
      rw [← h3]
      exact rustStringFromUtf8_some hB

/-- Claim C7 (amended), witness: a driver reporting log capacity 0 yields
an empty log with no retrieval call; one reporting capacity 4 and writing
3 bytes yields exactly those 3 bytes. -/
theorem string_introspection_roundtrip_witness :
    (Gl.gl glTableZero).get_program_info_log 1 =
      ([Call.getProgramiv 1 ffi.INFO_LOG_LENGTH], some []) ∧
    (Gl.gl glTableLog).get_program_info_log 1 =
      ([Call.getProgramiv 1 ffi.INFO_LOG_LENGTH, Call.getProgramInfoLog 1 4],
        some [97, 98, 99]) ∧
    (Gl.gl glTableZero).get_shader_info_log 2 =
      ([Call.getShaderiv 2 ffi.INFO_LOG_LENGTH], some []) ∧
    (Gl.gl glTableLog).get_shader_info_log 2 =
      ([Call.getShaderiv 2 ffi.INFO_LOG_LENGTH, Call.getShaderInfoLog 2 4],
        some [100, 101, 102]) := by
  have H0 := string_introspection_roundtrip (Gl.gl glTableZero) 1 2 0
  have H1 := string_introspection_roundtrip (Gl.gl glTableLog) 1 2 0
  exact ⟨H0.1 rfl, H1.2.1 (by decide), H0.2.2.1 rfl, H1.2.2.2.1 (by decide)⟩

/-! ## Claim about fail-fast contract assertions -/

/-- Claim C8, counterexample: `get_uniform_iv` takes a caller-supplied
result buffer, yet an empty result buffer is silently tolerated — the
driver call is still issued and no assertion fires; likewise `uniform_2fv`
silently truncates a mismatched odd-length slice (3 floats are forwarded
as count 1). -/
theorem contract_assertions_counterexample :
    (Gl.gl glTableZero).get_uniform_iv 1 0 [] = ([Call.getUniformiv 1 0], []) ∧
    (Gl.gl glTableZero).uniform_2fv 3 ([9, 9, 9] : List Int) =
      [Call.uniform2fv 3 1] := by
  constructor <;> rfl

/-- Claim C8, as amended: the result-buffer getters guarded by assertions
(`get_integer_v` and its family) fail fast on an empty result buffer and
proceed otherwise; `bind_buffer_range` fails fast on a negative offset or
size and proceeds otherwise; but `get_uniform_iv` forwards every
caller-supplied result buffer (including an empty one) with no assertion,
and `uniform_2fv` forwards `len / 2` for every slice (silently truncating
an odd length). -/
theorem contract_assertions (g : Gl) {α : Type} (name program target index buffer : Nat)
    (location offset size : Int) (result : List Int) (values : List α) :
    (result = [] → g.get_integer_v name result = ([], none)) ∧
    (result ≠ [] → ∃ out,
      g.get_integer_v name result = ([Call.getIntegerv name], some out)) ∧
    (offset < 0 →
      g.bind_buffer_range target index buffer offset size = ([], none)) ∧
    (size < 0 →
      g.bind_buffer_range target index buffer offset size = ([], none)) ∧
    (0 ≤ offset → 0 ≤ size →
      g.bind_buffer_range target index buffer offset size =
        ([Call.bindBufferRange target index buffer offset size], some ())) ∧
    (g.get_uniform_iv program location result =
      ([Call.getUniformiv program location],
        overwrite result (g.uniformIvResp program location))) ∧
    (g.uniform_2fv location values =
      [Call.uniform2fv location (Int.tdiv (wrapI32 (Int.ofNat values.length)) 2)]) := by
  refine ⟨fun h => ?_, fun h => ?_, fun h => ?_, fun h => ?_, fun h1 h2 => ?_,
    ?_, ?_⟩
  · subst h
    cases g <;> rfl
  · obtain ⟨r, rs, rfl⟩ := List.exists_cons_of_ne_nil h
    cases g <;> exact ⟨_, rfl⟩
  · cases g <;> (unfold Gl.bind_buffer_range; split_ifs <;> first | rfl | omega)
  · cases g <;> (unfold Gl.bind_buffer_range; split_ifs <;> first | rfl | omega)
  · cases g <;> (unfold Gl.bind_buffer_range; rw [if_pos h1, if_pos h2])
  · cases g <;> rfl
  · cases g <;> rfl

/-- Claim C8 (amended), witness: concrete instances of the assertion and
no-assertion behaviours. -/
theorem contract_assertions_witness :
    ((Gl.gl glTableZero).get_integer_v 5 [] = ([], none)) ∧
    (∃ out, (Gl.gl glTableZero).get_integer_v 5 [3] =
      ([Call.getIntegerv 5], some out)) ∧
    ((Gl.gl glTableZero).bind_buffer_range 1 2 3 (-1) 4 = ([], none)) ∧
    ((Gl.gl glTableZero).bind_buffer_range 1 2 3 0 (-2) = ([], none)) ∧
    ((Gl.gl glTableZero).bind_buffer_range 1 2 3 0 4 =
      ([Call.bindBufferRange 1 2 3 0 4], some ())) := by
  have H := contract_assertions (Gl.gl glTableZero) 5 1 1 2 3 0 (-1) 4 [3]
      ([] : List Int)
  have H2 := contract_assertions (Gl.gl glTableZero) 5 1 1 2 3 0 0 (-2) [3]
      ([] : List Int)
  have H3 := contract_assertions (Gl.gl glTableZero) 5 1 1 2 3 0 0 4 [3]
      ([] : List Int)
  have H4 := contract_assertions (Gl.gl glTableZero) 5 1 1 2 3 0 0 4
      ([] : List Int) ([] : List Int)
  exact ⟨H4.1 rfl, H.2.1 (by decide), H.2.2.1 (by decide), H2.2.2.2.1 (by decide),
    H3.2.2.2.2.1 (by decide) (by decide)⟩

/-! ## Claim about transform-feedback varying names -/

lemma tf_varying_eq (g : Gl) (program index : Nat) :
    g.get_transform_feedback_varying program index =
      ([Call.getTransformFeedbackVarying program index 128],
        match rustStringFromUtf8 (tfVaryingBytes g program index) with
        | some s => some ((g.tfVaryingResp program index 128).2.1,
            (g.tfVaryingResp program index 128).2.2.1, s)
        | none => none) := by
  cases g <;> rfl

/-- Claim C9: `transform_feedback_varyings` hands the driver each caller
name with the fixed two-character marker `"_u"` (bytes 0x5F 0x75)
prepended; `get_transform_feedback_varying` returns the driver's output
name unmodified (exactly the retrieval bytes truncated to the reported
length — no marker stripped). -/
theorem tf_varying_marker (g : Gl) (program : Nat) (varyings : List (List Nat))
    (buffer_mode index : Nat) :
    (varyings.all (fun v => v.all (fun b => b != 0)) = true →
      g.transform_feedback_varyings program varyings buffer_mode =
        ([Call.transformFeedbackVaryings program (Int.ofNat varyings.length)
          (varyings.map (fun v => [0x5F, 0x75] ++ v)) buffer_mode], some ())) ∧
    (∀ size ty name,
      (g.get_transform_feedback_varying program index).2 = some (size, ty, name) →
      name = tfVaryingBytes g program index) := by
  constructor
  · intro h
    cases g <;> simp [Gl.transform_feedback_varyings, h]
  · intro size ty name h
    rw [tf_varying_eq] at h
    rcases hB : rustStringFromUtf8 (tfVaryingBytes g program index) with _ | s
    · rw [hB] at h
      simp at h
    · rw [hB] at h
      simp only [Option.some.injEq, Prod.mk.injEq] at h
      obtain ⟨-, -, h3⟩ := h
      rw [← h3]
      exact rustStringFromUtf8_some hB

set_option maxRecDepth 4000 in
/-- Claim C9, witness: declaring `"abc"` sends `"_uabc"` to the driver,
and a driver-reported name `"_uabc"` comes back to the caller with its
marker intact. -/
theorem tf_varying_marker_witness :
    (Gl.gl glTableTF).transform_feedback_varyings 9 [[97, 98, 99]] 7 =
      ([Call.transformFeedbackVaryings 9 1 [[95, 117, 97, 98, 99]] 7], some ()) ∧
    ((Gl.gl glTableTF).get_transform_feedback_varying 9 0).2 =
      some (1, 35, [95, 117, 97, 98, 99]) ∧
    [95, 117, 97, 98, 99] = tfVaryingBytes (Gl.gl glTableTF) 9 0 := by
  have H := tf_varying_marker (Gl.gl glTableTF) 9 [[97, 98, 99]] 7 0
  exact ⟨H.1 (by decide), rfl, H.2 1 35 [95, 117, 97, 98, 99] rfl⟩

end gl
